import Mathlib

/-!
Verification of the barcode normalization and nutrition-lookup pipeline of
the dog_food_advice repository (src/backend_functions.py, src/streamline.py)
against its natural-language specification, via a shallow embedding.
-/

namespace DogFood

/-! ## Barcode normalizer — src/backend_functions.py, `strip_leading_zeros` -/

/-- `barcode_str.lstrip('0')`: the string with all leading `'0'` characters
removed. -/
def lstripZeros (s : String) : String :=
  String.mk (s.data.dropWhile (fun c => c = '0'))

/-- Embeds `strip_leading_zeros` on string input (the non-string coercion
branch is modelled separately on `PyValue`):
`stripped = barcode_str.lstrip('0')`; then
`if barcode_str and not stripped_barcode and '0' in barcode_str: return '0'
else: return stripped_barcode`. -/
def strip_leading_zeros (s : String) : String :=
  let stripped := lstripZeros s
  if s ≠ "" ∧ stripped = "" ∧ '0' ∈ s.data then "0" else stripped

/-- The normalizer as §4.1 of the spec words it: empty input maps to the
empty string; a non-empty input that consists only of `'0'` characters maps
to `"0"`; anything else maps to the input with its leading zeros removed.
Stated from the spec so that `strip_leading_zeros` can be proved to refine it. -/
def normalize_spec (s : String) : String :=
  if s = "" then ""
  else if s.data.all (fun c => c = '0') then "0"
  else lstripZeros s

/-! ## Python values — the non-string branch of `strip_leading_zeros` and the
`str(barcode_to_find)` coercion in `get_nutrition_data` -/

/-- A Python value at the public interface of the lookup pipeline: a `str`,
an `int`, or some other object whose `str()` conversion either yields a
string or raises (`none`). -/
inductive PyValue where
  | pyStr (s : String)
  | pyInt (n : Int)
  | pyOther (strResult : Option String)
deriving DecidableEq

/-- `str(v)`: `some` of the string form, or `none` when the conversion itself
raises. On a string, `str` is the identity. -/
def pyToStr : PyValue → Option String
  | .pyStr s => some s
  | .pyInt n => some (toString n)
  | .pyOther r => r

/-- The exceptions the embedded code can raise. -/
inductive PyError where
  | typeError
deriving DecidableEq

/-- Embeds `strip_leading_zeros` on an arbitrary Python value: string input
goes straight to the stripping logic; non-string input is first converted
with `str(...)`, and a failing conversion raises
`TypeError("Input must be a string or convertible to a string.")`. -/
def strip_leading_zeros_py (v : PyValue) : Except PyError String :=
  match v with
  | .pyStr s => .ok (strip_leading_zeros s)
  | _ =>
    match pyToStr v with
    | some s => .ok (strip_leading_zeros s)
    | none => .error .typeError

/-! ## Nutrition lookup client — src/backend_functions.py, `get_nutrition_data` -/

/-- A scalar JSON value, as far as the code inspects one
(`data.get('status') == 1` compares against the integer 1). -/
inductive JsonVal where
  | jNum (n : Int)
  | jStr (s : String)
  | jBool (b : Bool)
  | jNull
deriving DecidableEq

/-- The product payload: a JSON object, kept as an association list of
fields — the code passes it through unfiltered. -/
abbrev Product := List (String × JsonVal)

/-- The part of a parsed response body that the code reads:
`data.get('status')` and the optional `data['product']` payload. -/
structure ApiJson where
  status : Option JsonVal
  product : Option Product
deriving DecidableEq

/-- The body of an HTTP response as seen after `response.json()`:
either not parseable as JSON (the call raises `json.JSONDecodeError`) or a
parsed object. -/
inductive BodyParse where
  | notJson
  | json (d : ApiJson)
deriving DecidableEq

/-- The result of `requests.get`: a transport-level failure
(`requests.exceptions.RequestException`), or a response with a numeric HTTP
status code and a body. -/
inductive HttpResult where
  | netError
  | resp (status : Nat) (body : BodyParse)
deriving DecidableEq

/-- The HTTP request the client issues: a URL and the `User-Agent` header. -/
structure Request where
  url : String
  userAgent : String
deriving DecidableEq

/-- The URL template of `get_nutrition_data`: the fixed product endpoint with
the (already normalized) barcode spliced in, and the literal field list of the
source (`ingredients_text` appears twice there). -/
def apiUrl (stripedBarcode : String) : String :=
  "https://world.openpetfoodfacts.org/api/v2/product/" ++ stripedBarcode ++
    "?fields=product_name,brands,ingredients_text,ingredients_text,serving_size,energy-kcal_100g,fat_100g,carbohydrates_100g,proteins_100g"

/-- The individual fields named in the query string of `apiUrl`, in order. -/
def requestedFields : List String :=
  ["product_name", "brands", "ingredients_text", "ingredients_text",
   "serving_size", "energy-kcal_100g", "fat_100g", "carbohydrates_100g",
   "proteins_100g"]

/-- The `User-Agent` header value sent with the request. -/
def userAgentHeader : String := "YourProjectName - Python - Version 1.0"

/-- `response.raise_for_status()` raises `requests.exceptions.HTTPError`
exactly for 4xx and 5xx status codes. -/
def raisesForStatus (status : Nat) : Bool :=
  400 ≤ status && status < 600

/-- The response handling of `get_nutrition_data`, given the outcome of the
single `requests.get` call: a transport failure or a bad status code is caught
(`RequestException`) and yields `None`; an unparseable body is caught
(`JSONDecodeError`) and yields `None`; a parsed body yields `data['product']`
when `data.get('status') == 1 and 'product' in data`, else `None`. -/
def handle_response (r : HttpResult) : Option Product :=
  match r with
  | .netError => none
  | .resp status body =>
    if raisesForStatus status then none
    else
      match body with
      | .notJson => none
      | .json d =>
        if d.status = some (.jNum 1) ∧ d.product.isSome then d.product
        else none

/-- Embeds `get_nutrition_data(barcode_to_find)` against an HTTP oracle
`http` that answers the one GET request the code makes. Returns the Python
return value together with the list of requests issued. The code first
applies `str(...)` (whose failure would propagate — modelled as `.error`),
then `strip_leading_zeros`, builds the URL, performs exactly one
`requests.get` with the `User-Agent` header, and post-processes the result. -/
def get_nutrition_data (http : Request → HttpResult) (v : PyValue) :
    Except PyError (Option Product) × List Request :=
  match pyToStr v with
  | none => (.error .typeError, [])
  | some s =>
    let stipedBarcode := strip_leading_zeros s
    let req : Request := ⟨apiUrl stipedBarcode, userAgentHeader⟩
    (.ok (handle_response (http req)), [req])

/-! ## Barcode decoder — src/backend_functions.py, `scan_barcode_from_image`,
and src/streamline.py, `process_image_input` -/

/-- The fault raised when the image bytes cannot be decoded as pixel data
(`Image.open` or the symbol scan raises; both calls sit outside the `try`
block of `scan_barcode_from_image`, so the fault propagates to the caller). -/
inductive DecodeError where
  | badImage
deriving DecidableEq

/-- One symbol reported by the underlying symbol-detection routine. `data`
is the result of `.data.decode("utf-8")`: `some` of the text payload, or
`none` when the bytes are not valid UTF-8 and the decode call raises (that
exception is raised inside the `try` and caught). -/
structure DecodedObject where
  data : Option String
deriving DecidableEq

/-- An image input: either the pixel decode fails, or it yields a list of
detected barcode symbols in the order the detection routine reports them. -/
inductive ImageInput where
  | loadFailure
  | loaded (objs : List DecodedObject)
deriving DecidableEq

/-- Embeds `scan_barcode_from_image`: a pixel-decode failure propagates as an
error; otherwise, with at least one symbol the function returns the UTF-8
payload of the first (`decoded_objects[0].data.decode("utf-8")`, the decode
exception being caught and turned into `None`), and with zero symbols it
prints a message and falls through, returning `None`. -/
def scan_barcode_from_image (img : ImageInput) : Except DecodeError (Option String) :=
  match img with
  | .loadFailure => .error .badImage
  | .loaded objs =>
    match objs with
    | [] => .ok none
    | o :: _ => .ok o.data

/-- Embeds `process_image_input`: the scan is wrapped in
`try ... except Exception`, so a propagating fault is caught (`st.error`) and
the function returns `None`; `if not barcode:` treats both `None` and the
empty string as "no barcode" and also returns `None`; otherwise the barcode
is returned. -/
def process_image_input (img : ImageInput) : Option String :=
  match scan_barcode_from_image img with
  | .error _ => none
  | .ok none => none
  | .ok (some b) => if b = "" then none else some b

/-! ## Submission pipeline — src/streamline.py, output column -/

/-- The outcome of `ai_model.create_response`: the returned text, or a raised
exception (quota, network, malformed response). -/
inductive AiCall where
  | success (text : String)
  | failure
deriving DecidableEq

/-- What one submission with an available barcode and dog profile produced:
whether the nutrition table was displayed, whether the recommendation step
(the `create_response` call) ran, and whether an interaction log entry was
written. -/
structure SubmissionOutcome where
  displayedNutrition : Bool
  ranRecommendation : Bool
  loggedInteraction : Bool
deriving DecidableEq

/-- `nutrition_info` after the `try`/`except` around `get_nutrition_data`:
a raised exception is caught (`st.error`) and leaves `nutrition_info = None`. -/
def nutrition_info_of (lookupResult : Except PyError (Option Product)) : Option Product :=
  match lookupResult with
  | .error _ => none
  | .ok r => r

/-- Python truthiness of `nutrition_info` as tested by `if nutrition_info:`
— `None` and the empty dict are both falsy. -/
def pyTruthyProduct : Option Product → Bool
  | none => false
  | some p => !(List.isEmpty p)

/-- Embeds the output-column logic of src/streamline.py for a submission
that already has a barcode (`if nutrition_info:` → display; then
`if not CORRECT_PASSWORD:` / `elif app_password_input == CORRECT_PASSWORD:`
→ run the AI call; `if ai_recommendation:` — truthy, so non-`None` and
non-empty — → `log_interaction`; the remaining `elif`/`else` branches only
show messages). -/
def run_submission (correctPassword appPasswordInput : String)
    (lookupResult : Except PyError (Option Product)) (ai : AiCall) :
    SubmissionOutcome :=
  let nutrition_info := nutrition_info_of lookupResult
  if pyTruthyProduct nutrition_info then
    if correctPassword = "" then
      ⟨true, false, false⟩
    else if appPasswordInput = correctPassword then
      match ai with
      | .failure => ⟨true, true, false⟩
      | .success t => ⟨true, true, !(t = "")⟩
    else
      ⟨true, false, false⟩
  else
    ⟨false, false, false⟩

/-- `recommendation.replace(os.linesep, ' ')`: on the POSIX deployment
platform `os.linesep` is the single character `"\n"`, and replacing a
one-character pattern by a one-character replacement maps each matching
character to the replacement. -/
def flattenLinesep (s : String) : String :=
  String.mk (s.data.map (fun c => if c = '\n' then ' ' else c))

/-- Embeds `log_interaction`: the single log message appended per call, with
the recommendation text flattened. -/
def log_message (barcode dogInfo nutritionData recommendation : String) : String :=
  "Interaction Log:\n" ++
    "\tBarcode: " ++ barcode ++ "\n" ++
    "\tDog Info: " ++ dogInfo ++ "\n" ++
    "\tNutrition Data: " ++ nutritionData ++ "\n" ++
    "\tRecommendation: " ++ flattenLinesep recommendation

/-! ## Helper lemmas -/

theorem mem_of_ne_nil_all_zero {l : List Char}
    (hne : l ≠ []) (hall : ∀ c ∈ l, c = '0') : '0' ∈ l := by
  cases l with
  | nil => exact absurd rfl hne
  | cons a t => exact (hall a (List.mem_cons_self a t)) ▸ List.mem_cons_self a t

theorem string_eq_empty_iff (s : String) : s = "" ↔ s.data = [] := by
  constructor
  · intro h; rw [h]
  · intro h
    cases s with
    | mk d => cases h; rfl

/-! ## Claims -/

/-- `C1` — For every input string `s`, `strip_leading_zeros s` is `s` with all
leading `'0'` characters removed; a non-empty all-`'0'` input yields `"0"`;
the empty input yields `""`. Stated as: the code's normalizer agrees with the
spec's normalizer on every string (and, being a total Lean function, it always
succeeds and is pure). -/
theorem strip_leading_zeros_correct (s : String) :
    strip_leading_zeros s = normalize_spec s := by
  unfold strip_leading_zeros normalize_spec lstripZeros
  by_cases hs : s = ""
  · subst hs
    simp
  · have hdata : s.data ≠ [] := fun h => hs ((string_eq_empty_iff s).mpr h)
    by_cases hall : s.data.all (fun c => c = '0')
    · have hall' : ∀ c ∈ s.data, c = '0' := by
        intro c hc
        have := List.all_eq_true.mp hall c hc
        simpa using this
      have hdrop : s.data.dropWhile (fun c => c = '0') = [] := by
        rw [List.dropWhile_eq_nil_iff]
        intro x hx
        simp [hall' x hx]
      have hmk : String.mk (s.data.dropWhile (fun c => c = '0')) = "" := by
        rw [hdrop]
      simp only [hall, if_pos, if_neg hs]
      rw [if_pos ⟨hs, hmk, mem_of_ne_nil_all_zero hdata hall'⟩]
    · have hnodrop : String.mk (s.data.dropWhile (fun c => c = '0')) ≠ "" := by
        intro h
        have hnil : s.data.dropWhile (fun c => c = '0') = [] := by
          have := congrArg String.data h
          simpa using this
        have : ∀ x ∈ s.data, x = '0' := by
          intro x hx
          have := List.dropWhile_eq_nil_iff.mp hnil x hx
          simpa using this
        exact hall (List.all_eq_true.mpr (fun c hc => by simp [this c hc]))
      rw [if_neg (fun h => hnodrop h.2.1), if_neg hs, if_neg hall]

/-- `C2` — Normalization is idempotent:
`strip_leading_zeros (strip_leading_zeros s) = strip_leading_zeros s` for
every string, covering the all-zero case (input mapping to `"0"`) and the
empty case (input mapping to `""`). -/
theorem strip_leading_zeros_idempotent (s : String) :
    strip_leading_zeros (strip_leading_zeros s) = strip_leading_zeros s := by
  rw [strip_leading_zeros_correct, strip_leading_zeros_correct]
  unfold normalize_spec lstripZeros
  by_cases hs : s = ""
  · simp [hs]
  · by_cases hall : s.data.all (fun c => c = '0')
    · simp [hs, hall]
    · simp only [if_neg hs]
      rw [if_neg hall]
      have hne : String.mk (s.data.dropWhile (fun c => c = '0')) ≠ "" := by
        intro h
        have hnil : s.data.dropWhile (fun c => c = '0') = [] := by
          have := congrArg String.data h
          simpa using this
        have : ∀ x ∈ s.data, x = '0' := by
          intro x hx
          have := List.dropWhile_eq_nil_iff.mp hnil x hx
          simpa using this
        exact hall (List.all_eq_true.mpr (fun c hc => by simp [this c hc]))
      rw [if_neg hne]
      have hdata : (String.mk (s.data.dropWhile (fun c => c = '0'))).data
          = s.data.dropWhile (fun c => c = '0') := rfl
      have hnotall : ¬ (s.data.dropWhile (fun c => c = '0')).all (fun c => c = '0') := by
        intro h
        apply hne
        have hnil : s.data.dropWhile (fun c => c = '0')
            = (s.data.dropWhile (fun c => c = '0')).dropWhile (fun c => c = '0') := by
          rw [List.dropWhile_idempotent]
        have : (s.data.dropWhile (fun c => c = '0')).dropWhile (fun c => c = '0') = [] := by
          rw [List.dropWhile_eq_nil_iff]
          intro x hx
          have := List.all_eq_true.mp h x hx
          simpa using this
        have hfin : s.data.dropWhile (fun c => c = '0') = [] := hnil.trans this
        rw [hfin]
      rw [hdata, if_neg hnotall]
      apply congrArg
      rw [List.dropWhile_idempotent]

/-- `C3` counterexample — the claim that a well-formed not-found response and
an error response yield distinct values is false on the code: a 200 response
whose JSON has `status = 0` (barcode not present upstream) and a 500 response
with an unparseable body both make `get_nutrition_data` return the same
Python value, `None`. -/
theorem lookup_notfound_error_collapse :
    handle_response (.resp 200 (.json ⟨some (.jNum 0), none⟩)) = none ∧
    handle_response (.resp 500 .notJson) = none ∧
    handle_response (.resp 200 (.json ⟨some (.jNum 0), none⟩)) =
      handle_response (.resp 500 .notJson) := by
  refine ⟨by decide, by decide, by decide⟩

/-- `C3` (amended) — the lookup never raises an unhandled fault on these
paths, but it has only two distinguishable outcomes, not three: a 2xx
response whose JSON does not satisfy `status == 1 and 'product' in data`
(barcode not present upstream), a 2xx response whose body is not JSON
(`json.JSONDecodeError`, caught), a non-2xx response with any body
(`raise_for_status` raises before the body is parsed, caught), and a
transport failure all return the same value `None` — the not-found and
error outcomes are collapsed. -/
theorem lookup_failure_modes_return_none (d : ApiJson) (st est : Nat)
    (body : BodyParse) (h2xx : 200 ≤ st ∧ st < 300)
    (hnf : ¬(d.status = some (.jNum 1) ∧ d.product.isSome))
    (herr : 400 ≤ est ∧ est < 600) :
    handle_response (.resp st (.json d)) = none ∧
    handle_response (.resp st .notJson) = none ∧
    handle_response (.resp est body) = none ∧
    handle_response .netError = none := by
  have h1 : raisesForStatus st = false := by
    unfold raisesForStatus
    have : ¬ 400 ≤ st := by omega
    simp [this]
  refine ⟨?_, ?_, ?_, rfl⟩
  · simp [handle_response, h1, hnf]
  · simp [handle_response, h1]
  · have h2 : raisesForStatus est = true := by
      unfold raisesForStatus
      rw [Bool.and_eq_true]
      exact ⟨decide_eq_true herr.1, decide_eq_true herr.2⟩
    simp [handle_response, h2]

/-- Witness for `lookup_failure_modes_return_none` at concrete inputs. -/
theorem lookup_failure_modes_return_none_witness :
    handle_response (.resp 200 (.json ⟨some (.jNum 0), some [("product_name", .jStr "Test Kibble")]⟩)) = none ∧
    handle_response (.resp 200 .notJson) = none ∧
    handle_response (.resp 503 .notJson) = none ∧
    handle_response .netError = none :=
  lookup_failure_modes_return_none
    ⟨some (.jNum 0), some [("product_name", .jStr "Test Kibble")]⟩ 200 503 .notJson
    (by decide) (by decide) (by decide)

set_option maxRecDepth 8192 in
/-- `C4` — `get_nutrition_data` normalizes the stringified barcode, then
issues exactly one GET request: its URL is the fixed product endpoint
templated with the normalized barcode (input `"0000000000123"` yields the
URL built from `"123"`), its query names the field list of the source with
`ingredients_text` occurring twice and the name/brand/serving/per-100g
fields each present, and it carries the descriptive `User-Agent` header. -/
theorem get_nutrition_data_request_shape (http : Request → HttpResult)
    (v : PyValue) (s : String) (h : pyToStr v = some s) :
    (get_nutrition_data http v).2 =
      [⟨apiUrl (strip_leading_zeros s), userAgentHeader⟩] ∧
    (get_nutrition_data http v).2.length = 1 ∧
    apiUrl (strip_leading_zeros "0000000000123") = apiUrl "123" ∧
    (∀ b : String, apiUrl b =
      "https://world.openpetfoodfacts.org/api/v2/product/" ++ b ++
        ("?fields=" ++ String.intercalate "," requestedFields)) ∧
    requestedFields.count "ingredients_text" = 2 ∧
    "product_name" ∈ requestedFields ∧
    "brands" ∈ requestedFields ∧
    "serving_size" ∈ requestedFields ∧
    "energy-kcal_100g" ∈ requestedFields ∧
    "fat_100g" ∈ requestedFields ∧
    "carbohydrates_100g" ∈ requestedFields ∧
    "proteins_100g" ∈ requestedFields ∧
    userAgentHeader = "YourProjectName - Python - Version 1.0" := by
  refine ⟨?_, ?_, by decide, ?_, by decide, by decide, by decide, by decide,
    by decide, by decide, by decide, by decide, rfl⟩
  · simp [get_nutrition_data, h]
  · simp [get_nutrition_data, h]
  · intro b
    show apiUrl b = _ ++ b ++ ("?fields=" ++ String.intercalate "," requestedFields)
    have hfields : ("?fields=" ++ String.intercalate "," requestedFields) =
        "?fields=product_name,brands,ingredients_text,ingredients_text,serving_size,energy-kcal_100g,fat_100g,carbohydrates_100g,proteins_100g" := by
      decide
    rw [hfields]
    rfl

/-- Witness for `get_nutrition_data_request_shape` at concrete inputs. -/
theorem get_nutrition_data_request_shape_witness :
    (get_nutrition_data (fun _ => HttpResult.netError) (.pyStr "0000000000123")).2 =
      [⟨apiUrl (strip_leading_zeros "0000000000123"), userAgentHeader⟩] :=
  (get_nutrition_data_request_shape (fun _ => HttpResult.netError)
    (.pyStr "0000000000123") "0000000000123" rfl).1

/-- `C5` — For every 2xx response whose body parses as JSON, the lookup
returns the `product` payload exactly when the status flag equals `1` and
the `product` key is present, and returns the not-found value `None` for
every other parsed body. -/
theorem lookup_success_iff_status_found (st : Nat) (d : ApiJson)
    (h2xx : 200 ≤ st ∧ st < 300) :
    handle_response (.resp st (.json d)) =
      (if d.status = some (.jNum 1) ∧ d.product.isSome then d.product
       else none) := by
  have h1 : raisesForStatus st = false := by
    unfold raisesForStatus
    have : ¬ 400 ≤ st := by omega
    simp [this]
  simp [handle_response, h1]

/-- Witness for `lookup_success_iff_status_found` at a concrete input. -/
theorem lookup_success_iff_status_found_witness :
    handle_response (.resp 200 (.json ⟨some (.jNum 1), some [("product_name", .jStr "Test Kibble")]⟩)) =
      some [("product_name", .jStr "Test Kibble")] :=
  (lookup_success_iff_status_found 200
    ⟨some (.jNum 1), some [("product_name", .jStr "Test Kibble")]⟩
    (by decide)).trans (by decide)

/-- `C6` — For a successfully loaded image: if the symbol-detection routine
reports at least one barcode, `scan_barcode_from_image` returns the UTF-8
text payload of the first reported symbol; if it reports zero symbols, the
function returns no barcode value. -/
theorem scan_first_symbol_payload (o : DecodedObject)
    (rest : List DecodedObject) (t : String) (h : o.data = some t) :
    scan_barcode_from_image (.loaded (o :: rest)) = .ok (some t) ∧
    scan_barcode_from_image (.loaded []) = .ok none :=
  ⟨by simp [scan_barcode_from_image, h], rfl⟩

/-- Witness for `scan_first_symbol_payload` at a concrete input. -/
theorem scan_first_symbol_payload_witness :
    scan_barcode_from_image (.loaded [⟨some "0049000028911"⟩]) =
      .ok (some "0049000028911") ∧
    scan_barcode_from_image (.loaded []) = .ok none :=
  scan_first_symbol_payload ⟨some "0049000028911"⟩ [] "0049000028911" rfl

/-- `C7` — An image that cannot be decoded as pixel data makes the scan step
signal a fault and produce no barcode, and the condition is recoverable:
`process_image_input` catches it and continues, yielding `None` instead of
propagating the fault. -/
theorem decode_failure_recoverable :
    scan_barcode_from_image .loadFailure = .error .badImage ∧
    process_image_input .loadFailure = none :=
  ⟨rfl, rfl⟩

/-- `C8` — For a submission whose nutrition lookup succeeds (produces a
truthy record), the recommendation step runs exactly when a password is
configured (non-empty) and the entered password equals it; in every case the
nutrition result is still displayed, and the submission completes (the
embedded pipeline is total). -/
theorem recommendation_gated_by_password (cp pin : String)
    (lookupResult : Except PyError (Option Product)) (ai : AiCall)
    (p : Product) (hp : nutrition_info_of lookupResult = some p)
    (hne : p ≠ []) :
    (run_submission cp pin lookupResult ai).ranRecommendation
        = (decide (cp ≠ "") && decide (pin = cp)) ∧
    (run_submission cp pin lookupResult ai).displayedNutrition = true := by
  have htruthy : pyTruthyProduct (nutrition_info_of lookupResult) = true := by
    rw [hp]
    cases p with
    | nil => exact absurd rfl hne
    | cons a t => rfl
  by_cases hcp : cp = ""
  · subst hcp
    simp [run_submission, htruthy]
  · by_cases hpin : pin = cp
    · cases ai <;> simp [run_submission, htruthy, hcp, hpin]
    · simp [run_submission, htruthy, hcp, hpin]

/-- Witness for `recommendation_gated_by_password` at concrete inputs. -/
theorem recommendation_gated_by_password_witness :
    (run_submission "pw" "pw"
        (.ok (some [("product_name", .jStr "Test Kibble")]))
        (.success "feed less")).ranRecommendation = true ∧
    (run_submission "pw" "pw"
        (.ok (some [("product_name", .jStr "Test Kibble")]))
        (.success "feed less")).displayedNutrition = true := by
  have h := recommendation_gated_by_password "pw" "pw"
    (.ok (some [("product_name", .jStr "Test Kibble")])) (.success "feed less")
    [("product_name", .jStr "Test Kibble")] rfl (by decide)
  exact ⟨h.1.trans (by decide), h.2⟩

/-- `C9` counterexample — the claim that a log entry is written once per
successful AI recommendation fails on the code: when `create_response`
succeeds but returns the empty string, `if ai_recommendation:` is falsy and
no entry is written, although the recommendation step ran and returned
successfully. -/
theorem log_skipped_for_empty_success :
    (run_submission "pw" "pw"
        (.ok (some [("product_name", .jStr "Test Kibble")]))
        (.success "")).ranRecommendation = true ∧
    (run_submission "pw" "pw"
        (.ok (some [("product_name", .jStr "Test Kibble")]))
        (.success "")).loggedInteraction = false := by
  decide

/-- `C9` (amended) — an interaction log entry is written exactly once per
successful AI recommendation whose text is non-empty (truthy), and never
otherwise: no entry when the lookup fails, the password check fails, the
generation fails, or the generated text is empty. The recommendation text
written in the entry has embedded newline characters flattened to spaces. -/
theorem log_written_iff_nonempty_success (cp pin : String)
    (lookupResult : Except PyError (Option Product)) (ai : AiCall)
    (b dg nd r : String) :
    ((run_submission cp pin lookupResult ai).loggedInteraction = true ↔
      (pyTruthyProduct (nutrition_info_of lookupResult) = true ∧ ¬ cp = "" ∧
        pin = cp ∧ ∃ t, ai = AiCall.success t ∧ ¬ t = "")) ∧
    log_message b dg nd r =
      "Interaction Log:\n" ++ "\tBarcode: " ++ b ++ "\n" ++
        "\tDog Info: " ++ dg ++ "\n" ++ "\tNutrition Data: " ++ nd ++ "\n" ++
        "\tRecommendation: " ++ flattenLinesep r ∧
    '\n' ∉ (flattenLinesep r).data := by
  refine ⟨?_, rfl, ?_⟩
  · cases htr : pyTruthyProduct (nutrition_info_of lookupResult) with
    | false => simp [run_submission, htr]
    | true =>
      by_cases hcp : cp = ""
      · simp [run_submission, htr, hcp]
      · by_cases hpin : pin = cp
        · cases ai with
          | failure => simp [run_submission, htr, hcp, hpin]
          | success t => simp [run_submission, htr, hcp, hpin]
        · simp [run_submission, htr, hcp, hpin]
  · intro hmem
    have hmem' : '\n' ∈ r.data.map (fun c => if c = '\n' then ' ' else c) := hmem
    obtain ⟨c, _, hceq⟩ := List.mem_map.mp hmem'
    by_cases hc0 : c = '\n'
    · rw [if_pos hc0] at hceq
      exact absurd hceq (by decide)
    · rw [if_neg hc0] at hceq
      exact hc0 hceq

/-- `C10` — normalization and lookup are total over Python values:
`get_nutrition_data` stringifies its argument first, so for every value `v`
whose `str()` succeeds with `s` it behaves exactly as on the string `s`; and
`strip_leading_zeros` itself coerces non-string input with `str(...)`,
raising only when that conversion itself fails. -/
theorem lookup_total_over_py_values (http : Request → HttpResult)
    (v : PyValue) :
    (∀ s, pyToStr v = some s →
      get_nutrition_data http v = get_nutrition_data http (.pyStr s) ∧
      strip_leading_zeros_py v = .ok (strip_leading_zeros s)) ∧
    (pyToStr v = none →
      strip_leading_zeros_py v = .error .typeError ∧
      get_nutrition_data http v = (.error .typeError, [])) := by
  constructor
  · intro s hs
    cases v with
    | pyStr s' =>
      cases hs
      exact ⟨rfl, rfl⟩
    | pyInt n =>
      have : s = toString n := by
        simpa [pyToStr] using hs.symm
      subst this
      exact ⟨rfl, rfl⟩
    | pyOther r =>
      cases r with
      | none => cases hs
      | some s' =>
        have : s = s' := by
          simpa [pyToStr] using hs.symm
        subst this
        exact ⟨rfl, rfl⟩
  · intro hnone
    cases v with
    | pyStr s' => cases hnone
    | pyInt n => cases hnone
    | pyOther r =>
      cases r with
      | none => exact ⟨rfl, rfl⟩
      | some s' => cases hnone

/-- Witness for `lookup_total_over_py_values` at concrete inputs. -/
theorem lookup_total_over_py_values_witness :
    get_nutrition_data (fun _ => HttpResult.netError) (.pyInt 42) =
      get_nutrition_data (fun _ => HttpResult.netError) (.pyStr "42") ∧
    strip_leading_zeros_py (.pyOther none) = .error .typeError :=
  ⟨((lookup_total_over_py_values (fun _ => HttpResult.netError) (.pyInt 42)).1
      "42" rfl).1,
   ((lookup_total_over_py_values (fun _ => HttpResult.netError)
      (.pyOther none)).2 rfl).1⟩

end DogFood
